import Mathlib

/-!
Shallow embedding of the tgrid connector/server lifecycle machinery.

Embedded source files:
  - `src/protocols/web/WebServer.ts`          (namespace `WebServer`)
  - `src/protocols/workers/WorkerServer.ts`   (namespace `WorkerServerNew`)
  - old WorkerConnector (`part_000`)          (namespace `WorkerConnector`)
  - old WorkerServer (`part_001`)             (namespace `WorkerServerOld`)
  - web/shared-worker re-use tests (`part_002`)

The enums `IServer.State` and `IConnector.State` are referenced by the
sources but their defining file is not part of the corpus; the constructor
sets below are exactly the ones the sources use (`OPENING` on the server
side, `CONNECTING` on the connector side).
-/

namespace Tgrid

/-- Lifecycle state enum of servers (`IServer.State`), as used by
`WebServer` and both `WorkerServer` versions. -/
inductive State where
  | NONE
  | OPENING
  | OPEN
  | CLOSING
  | CLOSED
deriving DecidableEq, Repr, Fintype

/-- Lifecycle state enum of connectors (`IConnector.State`), as used by
`WorkerConnector` (`CONNECTING` plays the role the spec calls OPENING). -/
inductive ConnState where
  | NONE
  | CONNECTING
  | OPEN
  | CLOSING
  | CLOSED
deriving DecidableEq, Repr, Fintype

/-- Position of a server state in the order NONE -> OPENING -> OPEN ->
CLOSING -> CLOSED used by the monotonicity claims. -/
def State.stage : State → Nat
  | .NONE => 0
  | .OPENING => 1
  | .OPEN => 2
  | .CLOSING => 3
  | .CLOSED => 4

/-- Position of a connector state in the order NONE -> CONNECTING -> OPEN ->
CLOSING -> CLOSED. -/
def ConnState.stage : ConnState → Nat
  | .NONE => 0
  | .CONNECTING => 1
  | .OPEN => 2
  | .CLOSING => 3
  | .CLOSED => 4

/-- Kinds of error objects the sources construct (`tstl` exception classes). -/
inductive ErrKind where
  | DomainError
  | RuntimeError
  | TransportError
deriving DecidableEq, Repr

/-- An error value: the class that was constructed and its message string. -/
structure Err where
  kind : ErrKind
  message : String
deriving DecidableEq, Repr

namespace WorkerServerOld

/-- Embeds `WorkerServer.inspectReady` of the old worker server
(`part_001`, lines 166-185): null in OPEN, a `DomainError` in NONE and
OPENING, a `RuntimeError` in CLOSING and CLOSED, each with its own message.
The trailing `else` branch of the source is unreachable for the five enum
values and is kept as the final fallback. -/
def inspectReady (s : State) : Option Err :=
  if s = .OPEN then none
  else if s = .NONE then some ⟨.DomainError, "Server is not opened yet."⟩
  else if s = .OPENING then
    some ⟨.DomainError, "Server is on opening; wait for a sec."⟩
  else if s = .CLOSING then some ⟨.RuntimeError, "Server is on closing."⟩
  else if s = .CLOSED then
    some ⟨.RuntimeError, "The server has been closed."⟩
  else some ⟨.RuntimeError, "Unknown error, but not connected."⟩

end WorkerServerOld

namespace WorkerServerNew

/-- Embeds `WorkerServer.inspectReady` of the new worker server
(`WorkerServer.ts`, lines 231-245); textually the same decision tree as the
old version. -/
def inspectReady (s : State) : Option Err :=
  if s = .OPEN then none
  else if s = .NONE then some ⟨.DomainError, "Server is not opened yet."⟩
  else if s = .OPENING then
    some ⟨.DomainError, "Server is on opening; wait for a sec."⟩
  else if s = .CLOSING then some ⟨.RuntimeError, "Server is on closing."⟩
  else if s = .CLOSED then
    some ⟨.RuntimeError, "The server has been closed."⟩
  else some ⟨.RuntimeError, "Unknown error, but not connected."⟩

end WorkerServerNew

/-- Outcome of a `close()` call: the error it threw (if any), the object
afterwards, and whether the transport teardown path ran. -/
structure CloseOutcome (σ : Type) where
  error : Option Err
  after : σ
  teardownRan : Bool
deriving DecidableEq, Repr

namespace Communicator

/-- Modelled from the spec: `Communicator.destructor` / `failAll`
(`src/components/Communicator.ts` is not part of the corpus; only its
subclasses are). Section 4.3: `failAll` atomically drains the pending-call
table and rejects every entry with the same error; section 4.5: the
destructor fail-alls the table with a ConnectionClosed error. The result is
the rejection fan-out paired with the (empty) table left behind. -/
def destructor (pending : List Nat) : List (Nat × Err) × List Nat :=
  (pending.map fun u => (u, ⟨.RuntimeError, "ConnectionClosed"⟩), [])

end Communicator

namespace IConnector

/-- Modelled from the spec: `IConnector.inspect`
(`src/protocols/internal/IConnector.ts` is not part of the corpus), the
function behind `WorkerConnector.inspectReady`. Sections 3 and 7: an
OPEN-only operation rejects immediately in any state other than OPEN with a
NotReady error carrying a distinct subcode per source state. -/
def inspect : ConnState → Option Err
  | .OPEN => none
  | .NONE => some ⟨.DomainError, "not connected yet."⟩
  | .CONNECTING => some ⟨.DomainError, "on connecting."⟩
  | .CLOSING => some ⟨.RuntimeError, "on closing."⟩
  | .CLOSED => some ⟨.RuntimeError, "already closed."⟩

end IConnector

namespace WebServer

/-- State of a `WebServer` object: its lifecycle state and a generation
counter identifying the underlying node `http(s).Server` instance, bumped
whenever `createServer` is called (constructor counts as generation 0). -/
structure Obj where
  state : State
  listenerGen : Nat
deriving DecidableEq, Repr

/-- Embeds `WebServer.close` (`WebServer.ts`, lines 191-201): if the state
is not OPEN a `DomainError` is thrown before anything else, leaving every
field untouched and running no teardown; otherwise the state passes through
CLOSING, `_Close` tears the protocol and server down, and the state ends
CLOSED. -/
def close (w : Obj) : CloseOutcome Obj :=
  if w.state ≠ .OPEN then
    { error := some ⟨.DomainError, "Error on WebServer.close(): server is not opened."⟩,
      after := w, teardownRan := false }
  else
    { error := none, after := { w with state := .CLOSED }, teardownRan := true }

end WebServer

namespace WorkerServerNew

/-- Embeds `WorkerServer.close` of the new worker server
(`WorkerServer.ts`, lines 140-161): the `inspectReady` gate throws first on
any non-OPEN state, changing nothing; otherwise the state passes through
CLOSING, `destructor()` runs, the CLOSING sentinel is posted and the
channel closed, and the state ends CLOSED. -/
def close (s : State) : CloseOutcome State :=
  match inspectReady s with
  | some e => { error := some e, after := s, teardownRan := false }
  | none => { error := none, after := .CLOSED, teardownRan := true }

end WorkerServerNew

namespace WorkerServerOld

/-- Embeds `WorkerServer.close` of the old worker server (`part_001`,
lines 100-123): same shape as the new one — the `inspectReady` gate throws
first on any non-OPEN state, changing nothing; otherwise CLOSING,
`destructor()`, sentinel posted, channel closed, CLOSED. -/
def close (s : State) : CloseOutcome State :=
  match inspectReady s with
  | some e => { error := some e, after := s, teardownRan := false }
  | none => { error := none, after := .CLOSED, teardownRan := true }

end WorkerServerOld

namespace WorkerConnector

/-- State of a `WorkerConnector` object: its lifecycle state, whether a
`Worker` instance has been created (`worker_` non-undefined), and the
pending-call table of its Communicator base. -/
structure Obj where
  state : ConnState
  hasWorker : Bool
  pending : List Nat
deriving DecidableEq, Repr

/-- Embeds `WorkerConnector.close` (`part_000`, lines 188-207) together
with the completion it awaits: on the error path (`inspectReady`, i.e.
`IConnector.inspect`, non-null) the promise rejects before any sentinel is
posted and no field changes; on the success path the state passes through
CLOSING, the CLOSING sentinel is posted to the worker, and `join()`
resolves only after the echoed sentinel has driven `_Handle_close` —
`destructor()` then the state CLOSED. -/
def close (c : Obj) : CloseOutcome Obj :=
  match IConnector.inspect c.state with
  | some e => { error := some e, after := c, teardownRan := false }
  | none =>
    { error := none,
      after := { c with state := .CLOSED, pending := (Communicator.destructor c.pending).2 },
      teardownRan := true }

end WorkerConnector

/-- Outcome of an `open()`/`connect()` call: the error it threw (if any),
the object afterwards, and the lifecycle states traversed on the way. -/
structure OpenOutcome (σ : Type) where
  error : Option Err
  after : σ
  visited : List State
deriving DecidableEq, Repr

namespace WebServer

/-- The events that assign `WebServer.state_` in the source, one per
assignment site. -/
inductive Event where
  | openCall
  | listenOk
  | listenErr
  | closeCall
  | closeDone
deriving DecidableEq, Repr, Fintype

/-- Embeds the `WebServer` lifecycle transition system: `step s e` is the
state after event `e` when the corresponding source site can execute in
state `s`, and `none` otherwise. `open()` passes its guards only in NONE
and CLOSED and sets OPENING (lines 133-147); the "listening" handler sets
OPEN from OPENING (line 213); the "error" handler sets NONE (line 219) —
and since line 214 only adds a second no-op "error" listener without
removing this one, it stays attached to the node server for good, so a
server error resets the state to NONE not only from OPENING but from every
later state of that server instance (a NONE -> NONE self-loop after a
failed listen included); `close()` requires OPEN (line 194), sets CLOSING
(line 198) and, after `_Close`, CLOSED (line 200). -/
def step : State → Event → Option State
  | .NONE, .openCall => some .OPENING
  | .CLOSED, .openCall => some .OPENING
  | .OPENING, .listenOk => some .OPEN
  | _, .listenErr => some .NONE
  | .OPEN, .closeCall => some .CLOSING
  | .CLOSING, .closeDone => some .CLOSED
  | _, _ => none

/-- States reachable from the freshly constructed server (state NONE,
line 103) by a sequence of enabled events. -/
inductive Reachable : State → Prop where
  | init : Reachable .NONE
  | next (s : State) (e : Event) (t : State) :
      Reachable s → step s e = some t → Reachable t

/-- Embeds `open()` (lines 123-180) together with the settling of `_Open`
(lines 206-226), as a function of whether `listen` succeeds. The guards
throw synchronously in OPEN, OPENING and CLOSING without touching
anything; from CLOSED a fresh node server is constructed first
(`createServer`, lines 141-144, modelled by bumping `listenerGen`); then
the state is set OPENING and `_Open` either ends in OPEN ("listening") or
resets the state to NONE and rejects with the transport error ("error").
Apostrophes in the source messages are spelled out. -/
def openServer (w : Obj) (listenOk : Bool) : OpenOutcome Obj :=
  if w.state = .OPEN then
    { error := some ⟨.DomainError, "Error on WebServer.open(): it has already been opened."⟩,
      after := w, visited := [] }
  else if w.state = .OPENING then
    { error := some ⟨.DomainError, "Error on WebServer.open(): it is on opening, wait for a second."⟩,
      after := w, visited := [] }
  else if w.state = .CLOSING then
    { error := some ⟨.RuntimeError, "Error on WebServer.open(): it is on closing."⟩,
      after := w, visited := [] }
  else
    let w1 : Obj := if w.state = .CLOSED then { w with listenerGen := w.listenerGen + 1 } else w
    if listenOk then
      { error := none, after := { w1 with state := .OPEN }, visited := [.OPENING, .OPEN] }
    else
      { error := some ⟨.TransportError, "listen failed"⟩,
        after := { w1 with state := .NONE }, visited := [.OPENING, .NONE] }

end WebServer

namespace WorkerConnector

/-- The events that assign `WorkerConnector.state_` in the source
(`part_000`), one per assignment site. -/
inductive Event where
  | connectCall
  | connectFail
  | openMsg
  | closeCall
  | closingMsg
deriving DecidableEq, Repr, Fintype

/-- Embeds the `WorkerConnector` lifecycle transition system.
`connect()`/`compile()` pass `_Test_connection` only when no worker exists
(reachable solely in NONE) or the state is CLOSED, and set CONNECTING
(lines 145-156, 168); the `catch` of `_Connect` resets the state to NONE
(line 179); the OPEN sentinel from the server sets OPEN (line 246);
`close()` passes `inspectReady` only in OPEN and sets CLOSING (line 202);
the echoed CLOSING sentinel drives `_Handle_close`, which sets CLOSED
(line 262) — also when the server closes itself while the connector is
OPEN. -/
def step : ConnState → Event → Option ConnState
  | .NONE, .connectCall => some .CONNECTING
  | .CLOSED, .connectCall => some .CONNECTING
  | .CONNECTING, .connectFail => some .NONE
  | .CONNECTING, .openMsg => some .OPEN
  | .OPEN, .closeCall => some .CLOSING
  | .CLOSING, .closingMsg => some .CLOSED
  | .OPEN, .closingMsg => some .CLOSED
  | _, _ => none

/-- States reachable from the freshly constructed connector (state NONE,
line 64) by a sequence of enabled events. -/
inductive Reachable : ConnState → Prop where
  | init : Reachable .NONE
  | next (s : ConnState) (e : Event) (t : ConnState) :
      Reachable s → step s e = some t → Reachable t

/-- Outcome of a `_Connect` attempt: the object afterwards and whether the
returned promise rejected. -/
structure ConnectOutcome where
  after : Obj
  rejected : Bool
deriving DecidableEq, Repr

/-- Embeds `_Connect` (`part_000`, lines 161-183) as a function of whether
`Compiler.execute` succeeds: the state is set CONNECTING first; on success
the worker is created and the promise is left for the OPEN sentinel to
resolve; on throw the `catch` resets the state to NONE (the worker field
was never assigned) and rejects. -/
def connectAttempt (c : Obj) (execOk : Bool) : ConnectOutcome :=
  if execOk then
    { after := { c with state := .CONNECTING, hasWorker := true }, rejected := false }
  else
    { after := { c with state := .NONE }, rejected := true }

end WorkerConnector

namespace WorkerServerNew

/-- The events that assign `state_` in the new worker server
(`WorkerServer.ts`): `open()` sets OPENING (line 123) — in node only from
NONE, but in a browser worker from any state, because the
`state_ !== NONE` check sits in the `else if` chain of the `is_node()`
test (lines 108-120) and is skipped whenever `is_node()` is false — then
OPEN after the header handshake (line 134); `close()` sets CLOSING from
OPEN only (via `inspectReady`, lines 142-148) and then CLOSED
(line 160). -/
inductive Event where
  | openCall
  | handshakeDone
  | closeCall
  | closeDone
deriving DecidableEq, Repr, Fintype

/-- Lifecycle transition system of the new worker server, parameterised by
whether it runs inside a browser worker (where `open()`'s state guard is
skipped, see `Event`): in node `openCall` is enabled only in NONE, in the
browser in every state. -/
def step (browserWorker : Bool) : State → Event → Option State
  | s, .openCall => if browserWorker ∨ s = .NONE then some .OPENING else none
  | .OPENING, .handshakeDone => some .OPEN
  | .OPEN, .closeCall => some .CLOSING
  | .CLOSING, .closeDone => some .CLOSED
  | _, _ => none

/-- The environment `WorkerServer.open` of the new worker server tests
(lines 108-116): the node/browser flag, whether `self.document` is defined
(browser: we are a page, not a worker), and whether the channel reports
`is_worker_server()` (node). -/
structure OpenEnv where
  isNode : Bool
  hasDocument : Bool
  isWorkerChannel : Bool
deriving DecidableEq, Repr

/-- Embeds `WorkerServer.open` of the new worker server (lines 106-135).
The test condition is an `else if` chain on `is_node()`: in the browser,
only `self.document !== undefined` throws — the `state_ !== NONE` check is
in the node chain and is never reached, so a browser worker proceeds from
any state; in node, a non-worker channel throws, then any state other than
NONE throws the DomainError "the server has been opened yet.". On the
open path the state passes through OPENING, the header handshake runs, the
OPEN sentinel is posted, and the state ends OPEN. -/
def openServer (env : OpenEnv) (s : State) : OpenOutcome State :=
  if env.isNode = false then
    if env.hasDocument then
      { error := some ⟨.DomainError, "Error on WorkerServer.open(): this is not Worker."⟩,
        after := s, visited := [] }
    else
      { error := none, after := .OPEN, visited := [.OPENING, .OPEN] }
  else if env.isWorkerChannel = false then
    { error := some ⟨.DomainError, "Error on WorkerServer.open(): this is not Worker."⟩,
      after := s, visited := [] }
  else if s ≠ .NONE then
    { error := some ⟨.DomainError, "Error on WorkerServer.open(): the server has been opened yet."⟩,
      after := s, visited := [] }
  else
    { error := none, after := .OPEN, visited := [.OPENING, .OPEN] }

end WorkerServerNew

namespace WorkerServerOld

/-- The events that assign `state_` in the old worker server (`part_001`):
`open()` sets OPENING (line 88) — in node only from NONE, but in a browser
worker from any state, because the `state_ !== NONE` check sits in the
`else if` chain of the `is_node()` test (lines 77-85) and is skipped
whenever `is_node()` is false — and OPEN right after (line 94); `close()`
sets CLOSING from OPEN only (via `inspectReady`) and then CLOSED
(line 122). -/
inductive Event where
  | openCall
  | openDone
  | closeCall
  | closeDone
deriving DecidableEq, Repr, Fintype

/-- Lifecycle transition system of the old worker server, parameterised by
whether it runs inside a browser worker (where `open()`'s state guard is
skipped, see `Event`): in node `openCall` is enabled only in NONE, in the
browser in every state. -/
def step (browserWorker : Bool) : State → Event → Option State
  | s, .openCall => if browserWorker ∨ s = .NONE then some .OPENING else none
  | .OPENING, .openDone => some .OPEN
  | .OPEN, .closeCall => some .CLOSING
  | .CLOSING, .closeDone => some .CLOSED
  | _, _ => none

/-- The environment `WorkerServer.open` of the old worker server tests
(`part_001`, lines 77-83): the node/browser flag, whether `self.document`
is defined (browser), and whether `process.send` is defined (node child
process). -/
structure OpenEnv where
  isNode : Bool
  hasDocument : Bool
  hasProcessSend : Bool
deriving DecidableEq, Repr

/-- Embeds `WorkerServer.open` of the old worker server (`part_001`,
lines 74-95). Same `else if` shape as the new version: in the browser only
`self.document !== undefined` throws and the `state_ !== NONE` check is
skipped, so a browser worker proceeds from any state; in node, a missing
`process.send` throws "this is not Child Process.", then any state other
than NONE throws "the server has been opened yet.". On the open path:
OPENING, handlers installed, the OPEN sentinel posted, OPEN. -/
def openServer (env : OpenEnv) (s : State) : OpenOutcome State :=
  if env.isNode = false then
    if env.hasDocument then
      { error := some ⟨.DomainError, "Error on WorkerServer.open(): this is not Worker."⟩,
        after := s, visited := [] }
    else
      { error := none, after := .OPEN, visited := [.OPENING, .OPEN] }
  else if env.hasProcessSend = false then
    { error := some ⟨.DomainError, "Error on WorkerServer.open(): this is not Child Process."⟩,
      after := s, visited := [] }
  else if s ≠ .NONE then
    { error := some ⟨.DomainError, "Error on WorkerServer.open(): the server has been opened yet."⟩,
      after := s, visited := [] }
  else
    { error := none, after := .OPEN, visited := [.OPENING, .OPEN] }

end WorkerServerOld

/-- A frame arriving on a worker channel: either one of the five sentinel
values (the lifecycle enum members the sources compare `evt.data` against
with strict equality; the connector-side and server-side enums share their
values) or an ordinary data string. -/
inductive Frame where
  | sentinel (s : State)
  | data (s : String)
deriving DecidableEq, Repr

/-- What the message handler of a worker endpoint did with one incoming
frame. -/
inductive Handled (σ : Type) where
  | replied (after : σ) (forwarded : Frame)
  | closedPath (after : σ) (destructorRan : Bool) (channelClosed : Bool)
  | opened (after : σ)
  | closeFailed (after : σ)
deriving DecidableEq, Repr

namespace WorkerConnector

/-- Embeds `_Handle_message` (`part_000`, lines 242-253) and, for the
CLOSING sentinel, `_Handle_close` (lines 258-263): the OPEN sentinel
resolves the connect promise and sets OPEN; the CLOSING sentinel runs
`destructor()` (fail-all, emptying the pending table) and sets CLOSED
without closing a channel of its own (the worker side tears the channel
down); every other frame is forwarded to `replyData(JSON.parse(...))`. -/
def handleMessage (c : Obj) (f : Frame) : Handled Obj :=
  match f with
  | .sentinel .OPEN => .opened { c with state := .OPEN }
  | .sentinel .CLOSING =>
    .closedPath
      { c with state := .CLOSED, pending := (Communicator.destructor c.pending).2 }
      true false
  | g => .replied c g

/-- Embeds `_Test_connection` (`part_000`, lines 145-156): throws exactly
when a worker exists and the state is not CLOSED, with a message depending
on the state; a fresh connector (or one whose previous session ended in
CLOSED) passes. -/
def testConnection (c : Obj) : Option Err :=
  if c.hasWorker ∧ c.state ≠ .CLOSED then
    if c.state = .CONNECTING then some ⟨.DomainError, "on connecting."⟩
    else if c.state = .OPEN then some ⟨.DomainError, "already connected."⟩
    else some ⟨.DomainError, "closing."⟩
  else none

/-- Embeds a successful `connect()` (`part_000`, lines 132-140 and
161-183) driven to completion by the worker server's OPEN sentinel
(lines 244-247): the `_Test_connection` gate first, then CONNECTING with a
live worker, then OPEN when the sentinel arrives. -/
def connectOk (c : Obj) : Except Err Obj :=
  match testConnection c with
  | some e => .error e
  | none => .ok { c with state := .OPEN, hasWorker := true }

/-- Modelled from the spec: one full Call/Return round trip of the
Communicator core (`src/components/Communicator.ts` is not part of the
corpus). Sections 4.3-4.5: the driver invocation passes the ready gate
(`IConnector.inspect` for the connector), registers the fresh uid in the
pending-call table before the Call hits the wire, and the matching Return
removes exactly that entry and resolves the caller's future. -/
def callRoundTrip (c : Obj) (uid : Nat) : Except Err Obj :=
  match IConnector.inspect c.state with
  | some e => .error e
  | none => .ok { c with pending := (c.pending ++ [uid]).filter (fun u => u ≠ uid) }

/-- The `close()` path as an `Except`: rethrows the gate error, otherwise
yields the object after `_Handle_close` has completed. -/
def closeE (c : Obj) : Except Err Obj :=
  match close c with
  | { error := some e, .. } => .error e
  | { error := none, after := a, .. } => .ok a

/-- A sequence of Call round trips issued one after the other, stopping at
the first error. -/
def runCalls : Obj → List Nat → Except Err Obj
  | c, [] => .ok c
  | c, u :: rest =>
    match callRoundTrip c u with
    | .error e => .error e
    | .ok c1 => runCalls c1 rest

/-- One connect/use/close cycle of the re-use scenario (`part_002`,
`test_web_calculator` and `window.onload`): connect, issue `k` Call round
trips with fresh uids, close. -/
def cycle (c : Obj) (k : Nat) : Except Err Obj :=
  match connectOk c with
  | .error e => .error e
  | .ok c1 =>
    match runCalls c1 (List.range k) with
    | .error e => .error e
    | .ok c2 => closeE c2

/-- The cycle repeated `n` times on the same connector instance. -/
def cycles (k : Nat) : Nat → Obj → Except Err Obj
  | 0, c => .ok c
  | n + 1, c =>
    match cycle c k with
    | .error e => .error e
    | .ok c1 => cycles k n c1

end WorkerConnector

namespace WorkerServerNew

/-- Embeds `_Handle_message` of the new worker server (`WorkerServer.ts`,
lines 250-253): the CLOSING sentinel triggers `this.close()` — which, in
OPEN, runs `destructor()`, posts the CLOSING sentinel back, closes the
channel and ends CLOSED, and in any other state throws out of the
(unawaited) close call, changing nothing; every other frame is forwarded
to `replyData(JSON.parse(...))`. -/
def handleMessage (s : State) (f : Frame) : Handled State :=
  match f with
  | .sentinel .CLOSING =>
    match close s with
    | { error := none, after := t, teardownRan := td } => .closedPath t true td
    | { error := some _, .. } => .closeFailed s
  | g => .replied s g

end WorkerServerNew

namespace WorkerServerOld

/-- Embeds `_Handle_message` of the old worker server (`part_001`,
lines 190-196): same shape as the new one — the CLOSING sentinel triggers
`this.close()`, every other frame goes to `replyData(JSON.parse(...))`. -/
def handleMessage (s : State) (f : Frame) : Handled State :=
  match f with
  | .sentinel .CLOSING =>
    match close s with
    | { error := none, after := t, teardownRan := td } => .closedPath t true td
    | { error := some _, .. } => .closeFailed s
  | g => .replied s g

end WorkerServerOld

/-- The result of `JSON.parse` on a header payload, recorded by the raw
string that was parsed; the JSON grammar itself is the external default
codec of spec section 4.1 and is not modelled further. -/
structure Parsed where
  raw : String
deriving DecidableEq, Repr

namespace WorkerServerOld

/-- The environment the old worker server reads its headers from: the
node/browser flag, `process.argv[2]`, and the value of the URL query
variable named `__m_pArgs` in `self.location.href`. -/
structure Env where
  isNode : Bool
  argv2 : String
  urlArgs : String
deriving DecidableEq, Repr

/-- Embeds the `headers` getter (`part_001`, lines 139-150): when the
cache field `headers_` is still undefined, `JSON.parse` the command-line
argument `argv[2]` (node) or the `__m_pArgs` URL variable (browser) and
store the result; always return the stored value. The triple returned is
(value, cache afterwards, number of parses performed by this access). -/
def headersGet (env : Env) (cache : Option Parsed) : Parsed × Option Parsed × Nat :=
  match cache with
  | some h => (h, some h, 0)
  | none =>
    let raw := if env.isNode then env.argv2 else env.urlArgs
    (⟨raw⟩, some ⟨raw⟩, 1)

end WorkerServerOld

namespace WorkerServerNew

/-- The environment of the new worker server's header acquisition: the
same argv/URL data the old server used (still present in the worker's
environment, but no longer read by this code) plus the reply frame the
connector sends after the server posts the OPENING sentinel. -/
structure Env where
  argv2 : String
  urlArgs : String
  handshakeReply : String
deriving DecidableEq, Repr

/-- Result of one `getHeader()` access: the value produced, the Singleton
cache afterwards, how many parses this access ran, and whether it posted
the OPENING sentinel (the start of `_Handshake`). -/
structure HeaderAccess where
  value : Parsed
  cache : Option Parsed
  parses : Nat
  postedOpening : Bool
deriving DecidableEq, Repr

/-- Embeds `getHeader` and the `header_` Singleton initializer of the new
worker server (`WorkerServer.ts`, lines 85-91 and 176-178): on the first
access the initializer posts the OPENING sentinel, awaits the handshake
reply frame (`_Handshake`, lines 183-216), runs `JSON.parse` on it and
takes the envelope's header, caching the result; a later access returns
the cached value without posting or parsing anything. -/
def getHeader (env : Env) (cache : Option Parsed) : HeaderAccess :=
  match cache with
  | some h => { value := h, cache := some h, parses := 0, postedOpening := false }
  | none =>
    { value := ⟨env.handshakeReply⟩, cache := some ⟨env.handshakeReply⟩,
      parses := 1, postedOpening := true }

end WorkerServerNew

namespace WebServer

/-- A websocket frame as delivered by `ws`: a text frame carries its
string; a non-text (binary) frame is recorded together with the string
`JSON.parse` would coerce its buffer to if parsing were attempted. -/
inductive WSFrame where
  | text (s : String)
  | binary (coerced : String)
deriving DecidableEq, Repr

/-- Outcome of the once-handler installed on a fresh websocket upgrade. -/
structure UpgradeOutcome where
  socketClosed : Bool
  acceptor : Option Parsed
  handlerCalled : Bool
deriving DecidableEq, Repr

/-- Embeds the per-upgrade `once("message", ...)` handler of
`WebServer.open` (`WebServer.ts`, lines 157-174), parameterised by the
JSON envelope decoder (`decode s = some h` when `JSON.parse` yields an
envelope whose `header` field is `h`, `none` when it throws) and by
whether the user handler resolves (`handlerOk = false` models a throw).
Note the source's missing `return` after the non-string check (line 161):
the socket is closed, but the frame's coerced text still flows into
`JSON.parse`, so a binary frame that happens to decode also constructs an
acceptor and calls the handler on the already-closed socket. -/
def handleFirstFrame (decode : String → Option Parsed) (handlerOk : Bool)
    (f : WSFrame) : UpgradeOutcome :=
  match f with
  | .text s =>
    match decode s with
    | some h =>
      { socketClosed := handlerOk = false, acceptor := some h, handlerCalled := true }
    | none => { socketClosed := true, acceptor := none, handlerCalled := false }
  | .binary s =>
    match decode s with
    | some h => { socketClosed := true, acceptor := some h, handlerCalled := true }
    | none => { socketClosed := true, acceptor := none, handlerCalled := false }

/-- The message listener installed on an upgraded socket. `headerOnce` is
the `once` handler from `WebServer.open`; `vacant` is the emitter with no
listener (after `once` removed itself); `invoke` is the listener that
feeds `replyData`. The transition vacant -> invoke is performed by
`WebAcceptor.accept`. Modelled from the spec: `WebAcceptor`
(`src/protocols/web/WebAcceptor.ts` is not part of the corpus),
section 4.6: while the acceptor is pending, no business frames are
processed. -/
inductive Listener where
  | headerOnce
  | vacant
  | invoke
deriving DecidableEq, Repr

/-- One frame delivered against the current listener: the listener
afterwards, and the frame as forwarded to `replyData` (none when the frame
was consumed as the header envelope or dropped by the empty emitter). -/
def deliver (l : Listener) (f : WSFrame) : Listener × Option WSFrame :=
  match l with
  | .headerOnce => (.vacant, none)
  | .vacant => (.vacant, none)
  | .invoke => (.invoke, some f)

/-- One fold step of frame delivery: feed the frame to the current
listener and append whatever reached `replyData`. -/
def deliverFold (acc : Listener × List WSFrame) (f : WSFrame) :
    Listener × List WSFrame :=
  let next := deliver acc.1 f
  (next.1, acc.2 ++ next.2.toList)

/-- All frames a socket delivers before `accept()` runs, folded through
`deliver` starting from the freshly installed `once` handler; returns the
frames that reached `replyData`. -/
def repliedWhilePending (frames : List WSFrame) : List WSFrame :=
  (frames.foldl deliverFold (.headerOnce, [])).2

end WebServer

end Tgrid

namespace Tgrid

/-- C1: for both WorkerServer implementations, `inspectReady` returns null
exactly in state OPEN; in each of NONE, OPENING, CLOSING and CLOSED it
returns a non-null error, and distinct source states yield distinguishable
errors (the map state -> result is injective). -/
theorem C1_ready_gate :
    (∀ s : State, WorkerServerOld.inspectReady s = none ↔ s = .OPEN) ∧
    (∀ s : State, WorkerServerNew.inspectReady s = none ↔ s = .OPEN) ∧
    Function.Injective WorkerServerOld.inspectReady ∧
    Function.Injective WorkerServerNew.inspectReady := by
  refine ⟨by decide, by decide, ?_, ?_⟩ <;>
    · intro a b h
      revert h
      revert a b
      decide

/-- C2: on every Connector or Server whose state is not OPEN, `close()`
throws synchronously — a NotReady-kind error is produced before any
transport teardown runs — and the object (in particular its state) is left
unchanged. Covers `WebServer.close`, both `WorkerServer.close` versions and
`WorkerConnector.close`. -/
theorem C2_close_rejects_when_not_open :
    (∀ w : WebServer.Obj, w.state ≠ .OPEN →
      (WebServer.close w).error ≠ none ∧ (WebServer.close w).after = w ∧
        (WebServer.close w).teardownRan = false) ∧
    (∀ s : State, s ≠ .OPEN →
      (WorkerServerNew.close s).error ≠ none ∧ (WorkerServerNew.close s).after = s ∧
        (WorkerServerNew.close s).teardownRan = false) ∧
    (∀ s : State, s ≠ .OPEN →
      (WorkerServerOld.close s).error ≠ none ∧ (WorkerServerOld.close s).after = s ∧
        (WorkerServerOld.close s).teardownRan = false) ∧
    (∀ c : WorkerConnector.Obj, c.state ≠ .OPEN →
      (WorkerConnector.close c).error ≠ none ∧ (WorkerConnector.close c).after = c ∧
        (WorkerConnector.close c).teardownRan = false) := by
  refine ⟨fun w hw => ?_, fun s hs => ?_, fun s hs => ?_, fun c hc => ?_⟩
  · obtain ⟨s, g⟩ := w
    cases s <;> simp_all [WebServer.close]
  · cases s <;> simp_all [WorkerServerNew.close, WorkerServerNew.inspectReady]
  · cases s <;> simp_all [WorkerServerOld.close, WorkerServerOld.inspectReady]
  · obtain ⟨s, hk, p⟩ := c
    cases s <;> simp_all [WorkerConnector.close, IConnector.inspect]

/-- Witness for C2 at a concrete input: a CLOSED WebServer, WorkerServer
(old and new) and WorkerConnector each reject `close()` and stay put. -/
theorem C2_close_rejects_when_not_open_witness :
    ((WebServer.close ⟨.CLOSED, 0⟩).error ≠ none ∧
      (WebServer.close ⟨.CLOSED, 0⟩).after = ⟨.CLOSED, 0⟩ ∧
      (WebServer.close ⟨.CLOSED, 0⟩).teardownRan = false) ∧
    ((WorkerServerNew.close .CLOSED).error ≠ none ∧
      (WorkerServerNew.close .CLOSED).after = .CLOSED ∧
      (WorkerServerNew.close .CLOSED).teardownRan = false) ∧
    ((WorkerServerOld.close .CLOSED).error ≠ none ∧
      (WorkerServerOld.close .CLOSED).after = .CLOSED ∧
      (WorkerServerOld.close .CLOSED).teardownRan = false) ∧
    ((WorkerConnector.close ⟨.CLOSED, true, []⟩).error ≠ none ∧
      (WorkerConnector.close ⟨.CLOSED, true, []⟩).after = ⟨.CLOSED, true, []⟩ ∧
      (WorkerConnector.close ⟨.CLOSED, true, []⟩).teardownRan = false) :=
  ⟨C2_close_rejects_when_not_open.1 ⟨.CLOSED, 0⟩ (by decide),
    C2_close_rejects_when_not_open.2.1 .CLOSED (by decide),
    C2_close_rejects_when_not_open.2.2.1 .CLOSED (by decide),
    C2_close_rejects_when_not_open.2.2.2 ⟨.CLOSED, true, []⟩ (by decide)⟩

/-- C3 counterexample: the claim that no reachable execution ever moves
the state from a later stage back to an earlier one is false on the code:
OPENING is reachable on a `WebServer` (fresh server, `open()` called), and
the "error" handler of `_Open` then moves the state from OPENING back to
NONE, a strictly earlier stage. -/
theorem C3_counterexample :
    WebServer.Reachable .OPENING ∧
    WebServer.step .OPENING .listenErr = some .NONE ∧
    State.stage .NONE < State.stage .OPENING :=
  ⟨WebServer.Reachable.next .NONE .openCall .OPENING WebServer.Reachable.init rfl,
    rfl, by decide⟩

/-- C3 amended: every transition of the `WebServer`, `WorkerConnector` and
both `WorkerServer` lifecycle machines is monotone against the order
NONE -> OPENING/CONNECTING -> OPEN -> CLOSING -> CLOSED, except for three
reset families the code takes: (i) the allowed re-open/re-connect
CLOSED -> OPENING/CONNECTING that begins a new connection cycle; (ii) the
resets to NONE — `WorkerConnector._Connect`'s catch from CONNECTING, and
`WebServer`'s server-"error" handler, which is attached in `_Open` and
never removed, from any state of that server instance; (iii) in browser
workers, where `open()`'s state guard is skipped, `WorkerServer.open`
setting OPENING from any state — in node (the guarded branch) the worker
servers' transitions are strictly monotone. -/
theorem C3_monotone_except_resets :
    (∀ (s : State) (e : WebServer.Event) (t : State),
      WebServer.step s e = some t →
      State.stage s ≤ State.stage t ∨ (e = .listenErr ∧ t = .NONE) ∨
        (s = .CLOSED ∧ e = .openCall ∧ t = .OPENING)) ∧
    (∀ (s : ConnState) (e : WorkerConnector.Event) (t : ConnState),
      WorkerConnector.step s e = some t →
      ConnState.stage s ≤ ConnState.stage t ∨
        (s = .CONNECTING ∧ e = .connectFail ∧ t = .NONE) ∨
        (s = .CLOSED ∧ e = .connectCall ∧ t = .CONNECTING)) ∧
    (∀ (b : Bool) (s : State) (e : WorkerServerNew.Event) (t : State),
      WorkerServerNew.step b s e = some t →
      State.stage s ≤ State.stage t ∨ (b = true ∧ e = .openCall ∧ t = .OPENING)) ∧
    (∀ (b : Bool) (s : State) (e : WorkerServerOld.Event) (t : State),
      WorkerServerOld.step b s e = some t →
      State.stage s ≤ State.stage t ∨ (b = true ∧ e = .openCall ∧ t = .OPENING)) := by
  refine ⟨?_, ?_, ?_, ?_⟩ <;> decide

/-- Witness for C3 amended at concrete transitions: the first `open()` and
`connect()` transitions, and a browser worker server re-opening from
CLOSED (the exceptional reset). -/
theorem C3_monotone_except_resets_witness :
    (State.stage .NONE ≤ State.stage .OPENING ∨
      (WebServer.Event.openCall = .listenErr ∧ (.OPENING : State) = .NONE) ∨
      ((.NONE : State) = .CLOSED ∧ WebServer.Event.openCall = .openCall ∧
        (.OPENING : State) = .OPENING)) ∧
    (ConnState.stage .NONE ≤ ConnState.stage .CONNECTING ∨
      ((.NONE : ConnState) = .CONNECTING ∧ WorkerConnector.Event.connectCall = .connectFail ∧
        (.CONNECTING : ConnState) = .NONE) ∨
      ((.NONE : ConnState) = .CLOSED ∧ WorkerConnector.Event.connectCall = .connectCall ∧
        (.CONNECTING : ConnState) = .CONNECTING)) ∧
    (State.stage .CLOSED ≤ State.stage .OPENING ∨
      (true = true ∧ WorkerServerNew.Event.openCall = .openCall ∧
        (.OPENING : State) = .OPENING)) ∧
    (State.stage .CLOSED ≤ State.stage .OPENING ∨
      (true = true ∧ WorkerServerOld.Event.openCall = .openCall ∧
        (.OPENING : State) = .OPENING)) :=
  ⟨C3_monotone_except_resets.1 .NONE .openCall .OPENING rfl,
    C3_monotone_except_resets.2.1 .NONE .connectCall .CONNECTING rfl,
    C3_monotone_except_resets.2.2.1 true .CLOSED .openCall .OPENING (by decide),
    C3_monotone_except_resets.2.2.2 true .CLOSED .openCall .OPENING (by decide)⟩

/-- C4 counterexample: when `Compiler.execute` throws while the connector
is CONNECTING, the promise rejects but the state afterwards is NONE, not
CLOSED as the claim states; `WebServer._Open` behaves the same way
(OPENING -> NONE on the listen error). -/
theorem C4_counterexample :
    (WorkerConnector.connectAttempt ⟨.NONE, false, []⟩ false).rejected = true ∧
    (WorkerConnector.connectAttempt ⟨.NONE, false, []⟩ false).after.state = .NONE ∧
    (WorkerConnector.connectAttempt ⟨.NONE, false, []⟩ false).after.state ≠ .CLOSED ∧
    WebServer.step .OPENING .listenErr = some .NONE := by
  refine ⟨rfl, rfl, by decide, rfl⟩

/-- C4 amended: if the transport fails while the connector is CONNECTING,
the `connect()`/`compile()` promise rejects and the state afterwards is
NONE (reset), with the pending-call table still empty. -/
theorem C4_connect_failure_resets_to_none :
    ∀ c : WorkerConnector.Obj, c.pending = [] →
      (WorkerConnector.connectAttempt c false).rejected = true ∧
      (WorkerConnector.connectAttempt c false).after.state = .NONE ∧
      (WorkerConnector.connectAttempt c false).after.pending = [] := by
  intro c hp
  simp [WorkerConnector.connectAttempt, hp]

/-- Witness for C4 amended on a fresh connector. -/
theorem C4_connect_failure_resets_to_none_witness :
    (WorkerConnector.connectAttempt ⟨.NONE, false, []⟩ false).rejected = true ∧
    (WorkerConnector.connectAttempt ⟨.NONE, false, []⟩ false).after.state = .NONE ∧
    (WorkerConnector.connectAttempt ⟨.NONE, false, []⟩ false).after.pending = [] :=
  C4_connect_failure_resets_to_none ⟨.NONE, false, []⟩ rfl

/-- C5 counterexample: a `WorkerServer` (a Server implementation) running
as a node child process/worker thread and in state CLOSED rejects `open()`
with the already-open DomainError instead of re-opening; so open-from-
CLOSED does not succeed on every Server. -/
theorem C5_counterexample :
    (WorkerServerNew.openServer ⟨true, false, true⟩ .CLOSED).error =
      some ⟨.DomainError, "Error on WorkerServer.open(): the server has been opened yet."⟩ ∧
    (WorkerServerNew.openServer ⟨true, false, true⟩ .CLOSED).after = .CLOSED ∧
    (WorkerServerOld.openServer ⟨true, false, true⟩ .CLOSED).error ≠ none := by
  refine ⟨rfl, rfl, by decide⟩

/-- C5 amended: re-opening from CLOSED is allowed on the `WebServer` — a
fresh listener object is constructed (`listenerGen` bumped) and the server
proceeds through OPENING to OPEN along the same visited trace as a first
open from NONE. For both `WorkerServer` versions the state guard sits only
in the node branch of the `else if` chain: in a node child process/worker
thread, `open()` throws a DomainError from every state other than NONE and
leaves the state unchanged, so re-open from CLOSED fails there; in a
browser worker the guard is skipped and `open()` proceeds through OPENING
to OPEN from any state, CLOSED included. -/
theorem C5_reopen_rules :
    (∀ w : WebServer.Obj, w.state = .CLOSED →
      (WebServer.openServer w true).error = none ∧
      (WebServer.openServer w true).after.state = .OPEN ∧
      (WebServer.openServer w true).after.listenerGen = w.listenerGen + 1 ∧
      (WebServer.openServer w true).visited =
        (WebServer.openServer ⟨.NONE, w.listenerGen⟩ true).visited) ∧
    (∀ s : State, s ≠ .NONE →
      (WorkerServerNew.openServer ⟨true, false, true⟩ s).error ≠ none ∧
      (WorkerServerNew.openServer ⟨true, false, true⟩ s).after = s ∧
      (WorkerServerOld.openServer ⟨true, false, true⟩ s).error ≠ none ∧
      (WorkerServerOld.openServer ⟨true, false, true⟩ s).after = s) ∧
    (∀ (s : State) (b : Bool),
      WorkerServerNew.openServer ⟨false, false, b⟩ s =
        { error := none, after := .OPEN, visited := [.OPENING, .OPEN] } ∧
      WorkerServerOld.openServer ⟨false, false, b⟩ s =
        { error := none, after := .OPEN, visited := [.OPENING, .OPEN] }) := by
  refine ⟨?_, ?_, ?_⟩
  · intro w hw
    obtain ⟨s, g⟩ := w
    subst hw
    simp [WebServer.openServer]
  · intro s hs
    cases s <;> simp_all [WorkerServerNew.openServer, WorkerServerOld.openServer]
  · intro s b
    exact ⟨rfl, rfl⟩

/-- Witness for C5 amended: a CLOSED WebServer of generation 3 re-opens
into generation 4, a CLOSED node WorkerServer rejects `open()`, and a
CLOSED browser WorkerServer re-opens. -/
theorem C5_reopen_rules_witness :
    ((WebServer.openServer ⟨.CLOSED, 3⟩ true).error = none ∧
      (WebServer.openServer ⟨.CLOSED, 3⟩ true).after.state = .OPEN ∧
      (WebServer.openServer ⟨.CLOSED, 3⟩ true).after.listenerGen = 3 + 1 ∧
      (WebServer.openServer ⟨.CLOSED, 3⟩ true).visited =
        (WebServer.openServer ⟨.NONE, 3⟩ true).visited) ∧
    ((WorkerServerNew.openServer ⟨true, false, true⟩ .CLOSED).error ≠ none ∧
      (WorkerServerNew.openServer ⟨true, false, true⟩ .CLOSED).after = .CLOSED ∧
      (WorkerServerOld.openServer ⟨true, false, true⟩ .CLOSED).error ≠ none ∧
      (WorkerServerOld.openServer ⟨true, false, true⟩ .CLOSED).after = .CLOSED) ∧
    (WorkerServerNew.openServer ⟨false, false, false⟩ .CLOSED =
        { error := none, after := .OPEN, visited := [.OPENING, .OPEN] } ∧
      WorkerServerOld.openServer ⟨false, false, false⟩ .CLOSED =
        { error := none, after := .OPEN, visited := [.OPENING, .OPEN] }) :=
  ⟨C5_reopen_rules.1 ⟨.CLOSED, 3⟩ rfl, C5_reopen_rules.2.1 .CLOSED (by decide),
    C5_reopen_rules.2.2 .CLOSED false⟩

/-- A Call round trip in state OPEN with an empty pending table succeeds
and leaves the table empty again. -/
theorem callRoundTrip_open_empty (u : Nat) :
    WorkerConnector.callRoundTrip ⟨.OPEN, true, []⟩ u = .ok ⟨.OPEN, true, []⟩ := by
  simp [WorkerConnector.callRoundTrip, IConnector.inspect]

/-- Any batch of Call round trips in state OPEN starting from an empty
pending table succeeds and ends with an empty table. -/
theorem runCalls_open_empty (l : List Nat) :
    WorkerConnector.runCalls ⟨.OPEN, true, []⟩ l = .ok ⟨.OPEN, true, []⟩ := by
  induction l with
  | nil => rfl
  | cons u t ih => simp [WorkerConnector.runCalls, callRoundTrip_open_empty, ih]

/-- One connect/use/close cycle succeeds both on a fresh connector and on
one whose previous session ended CLOSED, ending CLOSED with an empty
pending table. -/
theorem cycle_ok (k : Nat) :
    WorkerConnector.cycle ⟨.NONE, false, []⟩ k = .ok ⟨.CLOSED, true, []⟩ ∧
    WorkerConnector.cycle ⟨.CLOSED, true, []⟩ k = .ok ⟨.CLOSED, true, []⟩ := by
  constructor <;>
    simp [WorkerConnector.cycle, WorkerConnector.connectOk,
      WorkerConnector.testConnection, runCalls_open_empty, WorkerConnector.closeE,
      WorkerConnector.close, IConnector.inspect, Communicator.destructor]

/-- Repeating the cycle from a CLOSED connector any number of times keeps
succeeding and ending CLOSED with an empty pending table. -/
theorem cycles_from_closed (k : Nat) :
    ∀ n : Nat, WorkerConnector.cycles k n ⟨.CLOSED, true, []⟩ =
      .ok ⟨.CLOSED, true, []⟩ := by
  intro n
  induction n with
  | zero => rfl
  | succ m ih => simp [WorkerConnector.cycles, (cycle_ok k).2, ih]

/-- C6: the connect/use/close cycle of the re-use scenario can be repeated
any number of times on the same connector instance: starting from the
fresh connector, every iteration's connect passes `_Test_connection`
(worker present but state CLOSED), every Call round trip succeeds, and
after each close the pending-call table is empty — `cycles` never rejects
and ends in CLOSED with `pending = []`. -/
theorem C6_reuse_cycles (n k : Nat) :
    WorkerConnector.cycles k n ⟨.NONE, false, []⟩ =
      .ok (if n = 0 then ⟨.NONE, false, []⟩ else ⟨.CLOSED, true, []⟩) := by
  cases n with
  | zero => rfl
  | succ m =>
    simp [WorkerConnector.cycles, (cycle_ok k).1, cycles_from_closed]

/-- C7: for every Worker-transport endpoint in its live state, receiving
the CLOSING sentinel runs that endpoint's own close path — `destructor()`
runs and the endpoint ends in state CLOSED, the servers also closing their
channel — and the sentinel, in any state, is never forwarded to
`replyData` as an Invoke message. -/
theorem C7_closing_sentinel :
    ∀ (s : State) (c : WorkerConnector.Obj), s = .OPEN →
      WorkerServerNew.handleMessage s (.sentinel .CLOSING) = .closedPath .CLOSED true true ∧
      WorkerServerOld.handleMessage s (.sentinel .CLOSING) = .closedPath .CLOSED true true ∧
      WorkerConnector.handleMessage c (.sentinel .CLOSING) =
        .closedPath { c with state := .CLOSED, pending := [] } true false ∧
      (∀ (t u : State) (g : Frame),
        WorkerServerNew.handleMessage t (.sentinel .CLOSING) ≠ .replied u g) ∧
      (∀ (t u : State) (g : Frame),
        WorkerServerOld.handleMessage t (.sentinel .CLOSING) ≠ .replied u g) ∧
      (∀ (d e : WorkerConnector.Obj) (g : Frame),
        WorkerConnector.handleMessage d (.sentinel .CLOSING) ≠ .replied e g) := by
  intro s c hs
  subst hs
  refine ⟨rfl, rfl, rfl, ?_, ?_, ?_⟩
  · intro t u g
    cases t <;>
      simp [WorkerServerNew.handleMessage, WorkerServerNew.close,
        WorkerServerNew.inspectReady]
  · intro t u g
    cases t <;>
      simp [WorkerServerOld.handleMessage, WorkerServerOld.close,
        WorkerServerOld.inspectReady]
  · intro d e g
    simp [WorkerConnector.handleMessage]

/-- Witness for C7 on an OPEN endpoint with one in-flight call. -/
theorem C7_closing_sentinel_witness :
    WorkerServerNew.handleMessage .OPEN (.sentinel .CLOSING) = .closedPath .CLOSED true true ∧
    WorkerServerOld.handleMessage .OPEN (.sentinel .CLOSING) = .closedPath .CLOSED true true ∧
    WorkerConnector.handleMessage ⟨.OPEN, true, [7]⟩ (.sentinel .CLOSING) =
      .closedPath ⟨.CLOSED, true, []⟩ true false :=
  ⟨(C7_closing_sentinel .OPEN ⟨.OPEN, true, [7]⟩ rfl).1,
    (C7_closing_sentinel .OPEN ⟨.OPEN, true, [7]⟩ rfl).2.1,
    (C7_closing_sentinel .OPEN ⟨.OPEN, true, [7]⟩ rfl).2.2.1⟩

/-- C8 counterexample: in an environment where the value the parent
serialised into the worker's environment (argv[2] and `__m_pArgs` both
"A") differs from the handshake reply frame ("B"), the new WorkerServer's
`getHeader()` yields the parse of the handshake reply, not of the
environment value — so the claim's parsing mechanism is wrong for the new
implementation, while the old one does parse "A". -/
theorem C8_counterexample :
    (WorkerServerNew.getHeader ⟨"A", "A", "B"⟩ none).value = ⟨"B"⟩ ∧
    (WorkerServerOld.headersGet ⟨true, "A", "A"⟩ none).1 = ⟨"A"⟩ ∧
    (WorkerServerNew.getHeader ⟨"A", "A", "B"⟩ none).value ≠ ⟨"A"⟩ := by
  refine ⟨rfl, rfl, by decide⟩

/-- C8 amended: the old worker server parses `argv[2]` (node) or the URL
variable `__m_pArgs` (browser) lazily on the first access to `headers` and
caches the result; the new worker server instead obtains its header
lazily, on the first `getHeader()` access, by posting the OPENING sentinel
and parsing the connector's handshake reply, cached in a Singleton; in
both, every later access returns the cached value without re-parsing. -/
theorem C8_header_lazy_cached :
    ∀ (envO : WorkerServerOld.Env) (envN : WorkerServerNew.Env),
      (WorkerServerOld.headersGet envO none).2.2 = 1 ∧
      (WorkerServerOld.headersGet envO none).1 =
        ⟨if envO.isNode then envO.argv2 else envO.urlArgs⟩ ∧
      (∀ h : Parsed, WorkerServerOld.headersGet envO (some h) = (h, some h, 0)) ∧
      (WorkerServerNew.getHeader envN none).parses = 1 ∧
      (WorkerServerNew.getHeader envN none).postedOpening = true ∧
      (WorkerServerNew.getHeader envN none).value = ⟨envN.handshakeReply⟩ ∧
      (∀ h : Parsed, WorkerServerNew.getHeader envN (some h) =
        { value := h, cache := some h, parses := 0, postedOpening := false }) := by
  intro envO envN
  exact ⟨rfl, rfl, fun h => rfl, rfl, rfl, rfl, fun h => rfl⟩

/-- Frame delivery against a listener that is not the Invoke listener
consumes or drops the frame and leaves the emitter with no listener. -/
theorem deliver_not_invoke (l : WebServer.Listener) (f : WebServer.WSFrame)
    (h : l ≠ .invoke) : WebServer.deliver l f = (.vacant, none) := by
  cases l <;> simp_all [WebServer.deliver]

/-- Folding any frames from a non-Invoke listener forwards nothing to
`replyData`. -/
theorem foldl_deliverFold_no_reply (frames : List WebServer.WSFrame) :
    ∀ (l : WebServer.Listener) (acc : List WebServer.WSFrame), l ≠ .invoke →
      (frames.foldl WebServer.deliverFold (l, acc)).2 = acc := by
  induction frames with
  | nil => intro l acc h; rfl
  | cons f t ih =>
    intro l acc h
    have hd := deliver_not_invoke l f h
    have : WebServer.deliverFold (l, acc) f = (.vacant, acc) := by
      simp [WebServer.deliverFold, hd]
    rw [List.foldl_cons, this]
    exact ih .vacant acc (by simp)

/-- C9: on a fresh websocket upgrade, the `once` handler consumes exactly
the first frame as the JSON header envelope: a text frame that decodes
yields an acceptor carrying that header handed to the user handler with
the socket left open; a text frame that fails to decode closes the socket
without an acceptor; a handler throw closes the socket; any non-text frame
closes the socket; and no frame reaches `replyData` while the acceptor is
still pending. -/
theorem C9_first_frame_header :
    ∀ (decode : String → Option Parsed) (handlerOk : Bool) (s t c : String) (h : Parsed),
      decode s = some h → decode t = none →
      WebServer.handleFirstFrame decode true (.text s) =
        { socketClosed := false, acceptor := some h, handlerCalled := true } ∧
      (WebServer.handleFirstFrame decode false (.text s)).socketClosed = true ∧
      WebServer.handleFirstFrame decode handlerOk (.text t) =
        { socketClosed := true, acceptor := none, handlerCalled := false } ∧
      (WebServer.handleFirstFrame decode handlerOk (.binary c)).socketClosed = true ∧
      (∀ frames : List WebServer.WSFrame, WebServer.repliedWhilePending frames = []) := by
  intro decode handlerOk s t c h hs ht
  refine ⟨?_, ?_, ?_, ?_, ?_⟩
  · simp [WebServer.handleFirstFrame, hs]
  · simp [WebServer.handleFirstFrame, hs]
  · simp [WebServer.handleFirstFrame, ht]
  · cases hc : decode c <;> simp [WebServer.handleFirstFrame, hc]
  · intro frames
    exact foldl_deliverFold_no_reply frames .headerOnce [] (by simp)

/-- Witness for C9 with a concrete decoder: the frame "hdr" decodes and
yields an acceptor, the frame "bad" does not and closes the socket, a
binary frame closes the socket, and nothing is replied while pending. -/
theorem C9_first_frame_header_witness :
    WebServer.handleFirstFrame
        (fun x => if x = "hdr" then some ⟨"hdr"⟩ else none) true (.text "hdr") =
      { socketClosed := false, acceptor := some ⟨"hdr"⟩, handlerCalled := true } ∧
    (WebServer.handleFirstFrame
        (fun x => if x = "hdr" then some ⟨"hdr"⟩ else none) true (.text "bad")) =
      { socketClosed := true, acceptor := none, handlerCalled := false } ∧
    (WebServer.handleFirstFrame
        (fun x => if x = "hdr" then some ⟨"hdr"⟩ else none) true (.binary "x")).socketClosed
      = true ∧
    WebServer.repliedWhilePending [.text "hdr", .text "late1", .binary "late2"] = [] :=
  ⟨(C9_first_frame_header (fun x => if x = "hdr" then some ⟨"hdr"⟩ else none)
      true "hdr" "bad" "x" ⟨"hdr"⟩ (by decide) (by decide)).1,
    (C9_first_frame_header (fun x => if x = "hdr" then some ⟨"hdr"⟩ else none)
      true "hdr" "bad" "x" ⟨"hdr"⟩ (by decide) (by decide)).2.2.1,
    (C9_first_frame_header (fun x => if x = "hdr" then some ⟨"hdr"⟩ else none)
      true "hdr" "bad" "x" ⟨"hdr"⟩ (by decide) (by decide)).2.2.2.1,
    (C9_first_frame_header (fun x => if x = "hdr" then some ⟨"hdr"⟩ else none)
      true "hdr" "bad" "x" ⟨"hdr"⟩ (by decide) (by decide)).2.2.2.2
      [.text "hdr", .text "late1", .binary "late2"]⟩

/-- C10: the old and the new WorkerServer have extensionally equal ready
gates: for every lifecycle state both `inspectReady` functions return the
same classification (same nullness, same error kind, same message). -/
theorem C10_ready_gate_equivalence :
    ∀ s : State, WorkerServerOld.inspectReady s = WorkerServerNew.inspectReady s := by
  decide

end Tgrid
